import Mathlib

/-!
Verification of the Grasshopper controller's request-building and
result-interpretation logic (app/grasshopper/controller.py), shallowly
embedded in Lean.  Numeric values are modelled as exact rationals; the
host language's string-to-float conversion is modelled for plain decimal
notation (optional sign, digits, optional fractional part, surrounding
spaces).  Fallible code returns `Option`.
-/

namespace Grasshopper

/-- A 3-D point, as constructed by `Point(x, y, z)`. -/
structure Point where
  x : ℚ
  y : ℚ
  z : ℚ
deriving DecidableEq

/-- A line segment between two points, as constructed by `Line(a, b)`. -/
structure Line where
  start_point : Point
  end_point : Point
deriving DecidableEq

/-- The two colors the controller uses: `Color.green()` and `Color.white()`. -/
inductive MColor where
  | green
  | white
deriving DecidableEq

/-- A material: `Material(name, color=..., threejs_opacity=...)`; the opacity
argument is omitted for the opaque field and centerline materials. -/
structure Material where
  name : String
  color : MColor
  threejs_opacity : Option ℚ
deriving DecidableEq

/-- A renderable solid: `CircularExtrusion(radius, line)` or
`RectangularExtrusion(width, length, line)`, optionally with a material
assigned after construction. -/
inductive Shape where
  | circularExtrusion (radius : ℚ) (line : Line) (material : Option Material)
  | rectangularExtrusion (width length : ℚ) (line : Line) (material : Option Material)
deriving DecidableEq

/-- Splitting a character list on the single-character separator `,`,
as `str.split(',')` does: every separator occurrence delimits a field,
and the accumulator holds the current field reversed. -/
def splitCommaAux : List Char → List Char → List (List Char)
  | [], acc => [acc.reverse]
  | c :: cs, acc =>
    if c = ',' then acc.reverse :: splitCommaAux cs []
    else splitCommaAux cs (c :: acc)

/-- String form of `str.split(',')`. -/
def pySplitComma (s : String) : List String :=
  (splitCommaAux s.data []).map String.mk

/-- Splitting a character list on the three-character separator `},{`,
as `str.split("},{")` does: scan left to right, split at each
non-overlapping occurrence of the separator. -/
def splitBraceAux : List Char → List Char → List (List Char)
  | '}' :: ',' :: '{' :: cs, acc => acc.reverse :: splitBraceAux cs []
  | c :: cs, acc => splitBraceAux cs (c :: acc)
  | [], acc => [acc.reverse]

/-- String form of the split on the three-character delimiter. -/
def pySplitBrace (s : String) : List String :=
  (splitBraceAux s.data []).map String.mk

/-- Value of a digit string as a natural number. -/
def digitsToNat (cs : List Char) : ℕ :=
  cs.foldl (fun n c => 10 * n + (c.toNat - 48)) 0

/-- Unsigned decimal numeral: digits with an optional fractional part,
at least one digit in total. -/
def parseDecimalCore (cs : List Char) : Option ℚ :=
  let intPart := cs.takeWhile Char.isDigit
  let rest := cs.dropWhile Char.isDigit
  match rest with
  | [] => if intPart.isEmpty then none else some (mkRat (digitsToNat intPart) 1)
  | '.' :: fracPart =>
    if fracPart.all Char.isDigit && !(intPart.isEmpty && fracPart.isEmpty) then
      some (mkRat (digitsToNat intPart * 10 ^ fracPart.length + digitsToNat fracPart)
              (10 ^ fracPart.length))
    else none
  | _ => none

/-- Model of the host language's `float(str)` conversion, restricted to
plain decimal notation: surrounding spaces are ignored, then an optional
sign precedes the decimal numeral.  Returns `none` where `float` raises
`ValueError`. -/
def parseFloat (s : String) : Option ℚ :=
  let cs := s.data.dropWhile (· = ' ')
  let cs := (cs.reverse.dropWhile (· = ' ')).reverse
  match cs with
  | '-' :: rest => (parseDecimalCore rest).map Neg.neg
  | '+' :: rest => parseDecimalCore rest
  | _ => parseDecimalCore cs

/-- Sequentially map a fallible function over a list, failing as soon as
any element fails — the semantics of a loop that appends `f a` and lets
an exception abort the whole computation. -/
def mapOption (f : α → Option β) : List α → Option (List β)
  | [] => some []
  | a :: as => Option.bind (f a) fun b => Option.map (b :: ·) (mapOption f as)

/-- One iteration of `parse_triangle_string`'s inner comprehension plus the
`Point(coordinates[0], coordinates[1], coordinates[2])` construction:
split the point substring on `,`, convert every component with `float`
(any failure aborts), then take the first three components (an index
error, hence `none`, if fewer than three exist). -/
def parsePoint (point_str : String) : Option Point :=
  match mapOption parseFloat (pySplitComma point_str) with
  | some (x :: y :: z :: _) => some ⟨x, y, z⟩
  | _ => none

/-- The triangle-line parser `parse_triangle_string`: drop the first and last character
(`triangle_string[1:-1]`), split on `},{`, parse every group as a point
(any failure aborts), and return the first three points — an index error,
hence `none`, if fewer than three groups were produced. -/
def parse_triangle_string (triangle_string : String) : Option (Point × Point × Point) :=
  match mapOption parsePoint (pySplitBrace ((triangle_string.drop 1).dropRight 1)) with
  | some (p0 :: p1 :: p2 :: _) => some (p0, p1, p2)
  | _ => none

/-- The three struts added for one parsed triangle `(a, b, c)`:
`CircularExtrusion(0.5, Line(a, b))`, `CircularExtrusion(0.5, Line(a, c))`,
`CircularExtrusion(0.5, Line(b, c))`, each with no material assigned. -/
def strutsOfTriangle (a b c : Point) : List Shape :=
  [Shape.circularExtrusion 0.5 ⟨a, b⟩ none,
   Shape.circularExtrusion 0.5 ⟨a, c⟩ none,
   Shape.circularExtrusion 0.5 ⟨b, c⟩ none]

/-- The five fixed shapes `generate_geometry_group_from_triangles` appends
after the triangle struts: the green field slab, the white centerline
strip, the white outer circle, the green inner circle, and the white
center point, with the materials and vertical extents of the source. -/
def decorativeShapes (field_length field_width : ℚ) : List Shape :=
  [Shape.rectangularExtrusion field_width field_length ⟨⟨0, 0, 0⟩, ⟨0, 0, 0.1⟩⟩
     (some ⟨"grass", MColor.green, none⟩),
   Shape.rectangularExtrusion 1 field_length ⟨⟨0, 0, 0⟩, ⟨0, 0, 0.4⟩⟩
     (some ⟨"line", MColor.white, none⟩),
   Shape.circularExtrusion 14 ⟨⟨0, 0, 0⟩, ⟨0, 0, 0.2⟩⟩
     (some ⟨"line", MColor.white, some 0.9⟩),
   Shape.circularExtrusion 12 ⟨⟨0, 0, 0⟩, ⟨0, 0, 0.3⟩⟩
     (some ⟨"grass", MColor.green, some 1⟩),
   Shape.circularExtrusion 1.5 ⟨⟨0, 0, 0⟩, ⟨0, 0, 0.4⟩⟩
     (some ⟨"line", MColor.white, some 0.9⟩)]

/-- The scene builder `generate_geometry_group_from_triangles`: parse every triangle string
(the first failure aborting the whole computation, as the exception would),
emit the three struts per triangle in input order, then append the five
fixed decorative shapes. -/
def generate_geometry_group_from_triangles (field_length field_width : ℚ)
    (triangle_strings : List String) : Option (List Shape) :=
  (mapOption (fun ts => (parse_triangle_string ts).map
      (fun t => strutsOfTriangle t.1 t.2.1 t.2.2)) triangle_strings).map
    (fun strutLists => strutLists.flatten ++ decorativeShapes field_length field_width)

/-- The result handed to the view: the data group (an ordered list of
key-value `DataItem`s), the computed field dimensions, and the geometry
group's shapes in insertion order. -/
structure VisualizeResult where
  summary : List (String × String)
  field_width : ℚ
  field_length : ℚ
  scene : List Shape
deriving DecidableEq

/-- The result-interpretation part of `visualize`, acting on the lines of
`output.txt`: line 0 is the seat count (passed through verbatim), lines 1
and 2 are parsed as floats and doubled, the remaining lines are triangle
strings; a missing line or failed conversion aborts with an error. -/
def visualize (grass_hopper_data : List String) : Option VisualizeResult :=
  Option.bind grass_hopper_data[0]? fun amount_of_seats =>
  Option.bind grass_hopper_data[1]? fun s1 =>
  Option.bind (parseFloat s1) fun w =>
  let field_width := w * 2
  Option.bind grass_hopper_data[2]? fun s2 =>
  Option.bind (parseFloat s2) fun l =>
  let field_length := l * 2
  let triangle_strings := grass_hopper_data.drop 3
  Option.bind (generate_geometry_group_from_triangles field_length field_width triangle_strings)
    fun geometry_group =>
  some ⟨[("Number of seats", amount_of_seats)], field_width, field_length, geometry_group⟩

/-- The design-parameter record serialized into `input.txt`, with each
field already rendered to the text that the f-string interpolation
produces for it. -/
structure DesignParams where
  pitch_width : String
  Offset : String
  Shape : String
  Depth : String
  Asymmetry_length : String
  Asymmetry_width : String
  Height : String

/-- The `input.txt` payload: the seven fields joined by `, ` in the fixed
order of the source's f-string. -/
def input_str (p : DesignParams) : String :=
  p.pitch_width ++ ", " ++ p.Offset ++ ", " ++ p.Shape ++ ", " ++ p.Depth ++ ", " ++
    p.Asymmetry_length ++ ", " ++ p.Asymmetry_width ++ ", " ++ p.Height

/-- A triangle line with two point groups. -/
def twoGroupLine : String := "\x7b0,0,0\x7d,\x7b1,1,1\x7d"

/-- A well-formed triangle line with three point groups. -/
def threeGroupLine : String := "\x7b0,0,0\x7d,\x7b1,1,1\x7d,\x7b2,2,2\x7d"

/-- A triangle line with four point groups, all of them numeric. -/
def fourGroupLine : String := "\x7b0,0,0\x7d,\x7b1,1,1\x7d,\x7b2,2,2\x7d,\x7b3,3,3\x7d"

/-- The worked-example Result Document: seat count 12, half-extents 5 and
10, and one triangle. -/
def sampleLines : List String :=
  ["12", "5.0", "10.0", "\x7b0,0,0\x7d,\x7b1,0,0\x7d,\x7b0,1,0\x7d"]

/-- The interpretation the controller produces for `sampleLines`. -/
def sampleResult : VisualizeResult :=
  ⟨[("Number of seats", "12")], 10, 20,
    strutsOfTriangle ⟨0, 0, 0⟩ ⟨1, 0, 0⟩ ⟨0, 1, 0⟩ ++ decorativeShapes 20 10⟩

theorem mapOption_length {f : α → Option β} :
    ∀ {l : List α} {l' : List β}, mapOption f l = some l' → l'.length = l.length := by
  intro l
  induction l with
  | nil => intro l' h; simp [mapOption] at h; simp [h.symm]
  | cons a as ih =>
    intro l' h
    simp only [mapOption] at h
    cases hfa : f a with
    | none => rw [hfa] at h; simp [Option.bind] at h
    | some b =>
      rw [hfa] at h
      cases hrest : mapOption f as with
      | none => rw [hrest] at h; simp [Option.bind] at h
      | some bs =>
        rw [hrest] at h
        simp [Option.bind] at h
        simp [h.symm, ih hrest]

theorem mapOption_eq_none_of_mem {f : α → Option β} :
    ∀ {l : List α}, (∃ a ∈ l, f a = none) → mapOption f l = none := by
  intro l
  induction l with
  | nil => intro h; simp at h
  | cons a as ih =>
    intro h
    obtain ⟨a', ha', hfa'⟩ := h
    simp only [mapOption]
    rcases List.mem_cons.mp ha' with h1 | h1
    · rw [h1] at hfa'; rw [hfa']; rfl
    · cases hfa : f a with
      | none => rfl
      | some b => simp [Option.bind, ih ⟨a', h1, hfa'⟩]

theorem mapOption_map_comp (f : α → Option β) (g : β → γ) :
    ∀ l : List α, mapOption (fun a => (f a).map g) l = (mapOption f l).map (List.map g) := by
  intro l
  induction l with
  | nil => rfl
  | cons a as ih =>
    simp only [mapOption, ih]
    cases f a <;> cases mapOption f as <;> simp [Option.bind]

theorem splitCommaAux_length :
    ∀ (cs acc : List Char), (splitCommaAux cs acc).length = cs.count ',' + 1 := by
  intro cs
  induction cs with
  | nil => intro acc; simp [splitCommaAux]
  | cons c cs ih =>
    intro acc
    by_cases hc : c = ','
    · simp [splitCommaAux, hc, ih, List.count_cons]
    · simp [splitCommaAux, hc, ih, List.count_cons]

theorem pySplitComma_length (s : String) :
    (pySplitComma s).length = s.data.count ',' + 1 := by
  simp [pySplitComma, splitCommaAux_length]

theorem strutsLists_flatten_length :
    ∀ tris : List (Point × Point × Point),
      ((tris.map fun t => strutsOfTriangle t.1 t.2.1 t.2.2).flatten).length = 3 * tris.length := by
  intro tris
  induction tris with
  | nil => rfl
  | cons t ts ih =>
    rw [List.map_cons, List.flatten_cons, List.length_append, ih, List.length_cons]
    simp [strutsOfTriangle]
    ring

theorem generate_eq_some_iff {fl fw : ℚ} {ts : List String} {scene : List Shape} :
    generate_geometry_group_from_triangles fl fw ts = some scene ↔
    ∃ tris, mapOption parse_triangle_string ts = some tris ∧
      scene = (tris.map fun t => strutsOfTriangle t.1 t.2.1 t.2.2).flatten ++
        decorativeShapes fl fw := by
  unfold generate_geometry_group_from_triangles
  rw [mapOption_map_comp]
  cases h : mapOption parse_triangle_string ts with
  | none => simp
  | some tris => simp [eq_comm]

theorem visualize_some_elim {lines : List String} {r : VisualizeResult}
    (h : visualize lines = some r) :
    ∃ s0 s1 w s2 l scene,
      lines[0]? = some s0 ∧ lines[1]? = some s1 ∧ parseFloat s1 = some w ∧
      lines[2]? = some s2 ∧ parseFloat s2 = some l ∧
      generate_geometry_group_from_triangles (l * 2) (w * 2) (lines.drop 3) = some scene ∧
      r = ⟨[("Number of seats", s0)], w * 2, l * 2, scene⟩ := by
  unfold visualize at h
  cases h0 : lines[0]? with
  | none => rw [h0] at h; simp at h
  | some s0 =>
    rw [h0] at h; simp only [Option.some_bind] at h
    cases h1 : lines[1]? with
    | none => rw [h1] at h; simp at h
    | some s1 =>
      rw [h1] at h; simp only [Option.some_bind] at h
      cases hw : parseFloat s1 with
      | none => rw [hw] at h; simp at h
      | some w =>
        rw [hw] at h; simp only [Option.some_bind] at h
        cases h2 : lines[2]? with
        | none => rw [h2] at h; simp at h
        | some s2 =>
          rw [h2] at h; simp only [Option.some_bind] at h
          cases hl : parseFloat s2 with
          | none => rw [hl] at h; simp at h
          | some l =>
            rw [hl] at h; simp only [Option.some_bind] at h
            cases hg : generate_geometry_group_from_triangles (l * 2) (w * 2)
                (lines.drop 3) with
            | none => rw [hg] at h; simp at h
            | some scene =>
              rw [hg] at h; simp only [Option.some_bind, Option.some.injEq] at h
              exact ⟨s0, s1, w, s2, l, scene, rfl, rfl, hw, rfl, hl, hg, h.symm⟩

/-- Claim C1: for every Result Document that interprets successfully, the
scene is exactly the per-triangle struts (three per triangle-descriptor
line, in input order) followed by exactly the 5 fixed decorative shapes;
with N triangle lines there are exactly 3N strut shapes. -/
theorem visualize_scene_struts_then_decorations :
    ∀ (lines : List String) (r : VisualizeResult), visualize lines = some r →
    ∃ tris, mapOption parse_triangle_string (lines.drop 3) = some tris ∧
      r.scene = (tris.map fun t => strutsOfTriangle t.1 t.2.1 t.2.2).flatten ++
        decorativeShapes r.field_length r.field_width ∧
      ((tris.map fun t => strutsOfTriangle t.1 t.2.1 t.2.2).flatten).length =
        3 * (lines.drop 3).length ∧
      (decorativeShapes r.field_length r.field_width).length = 5 := by
  intro lines r h
  obtain ⟨s0, s1, w, s2, l, scene, h0, h1, hw, h2, hl, hg, hr⟩ := visualize_some_elim h
  obtain ⟨tris, htris, hscene⟩ := generate_eq_some_iff.mp hg
  subst hr
  refine ⟨tris, htris, hscene, ?_, rfl⟩
  rw [strutsLists_flatten_length, mapOption_length htris]

/-- Witness for C1 at the worked example: one triangle, 3 struts, 5 fixed
shapes. -/
theorem visualize_scene_struts_then_decorations_witness :
    visualize sampleLines = some sampleResult ∧
    ∃ tris, mapOption parse_triangle_string (sampleLines.drop 3) = some tris ∧
      sampleResult.scene = (tris.map fun t => strutsOfTriangle t.1 t.2.1 t.2.2).flatten ++
        decorativeShapes sampleResult.field_length sampleResult.field_width ∧
      ((tris.map fun t => strutsOfTriangle t.1 t.2.1 t.2.2).flatten).length =
        3 * (sampleLines.drop 3).length ∧
      (decorativeShapes sampleResult.field_length sampleResult.field_width).length = 5 :=
  ⟨by with_unfolding_all decide,
   visualize_scene_struts_then_decorations sampleLines sampleResult
     (by with_unfolding_all decide)⟩

/-- Counterexample to claim C2 as stated: a triangle line splitting into
four numeric point groups does not fail; the parser succeeds on the first
three groups. -/
theorem parse_triangle_string_four_groups_ok :
    (pySplitBrace ((fourGroupLine.drop 1).dropRight 1)).length = 4 ∧
    parse_triangle_string fourGroupLine = some (⟨0, 0, 0⟩, ⟨1, 1, 1⟩, ⟨2, 2, 2⟩) := by
  decide

/-- Claim C2 (amended): the parser strips one leading and one trailing
character and splits on the exact delimiter between point groups; it fails
with a parse error whenever fewer than 3 point groups result, and when
exactly 3 groups result and all of them parse it returns them in order. -/
theorem parse_triangle_string_group_count :
    (∀ s : String, (pySplitBrace ((s.drop 1).dropRight 1)).length < 3 →
       parse_triangle_string s = none) ∧
    (∀ (s : String) (p0 p1 p2 : Point),
       mapOption parsePoint (pySplitBrace ((s.drop 1).dropRight 1)) = some [p0, p1, p2] →
       parse_triangle_string s = some (p0, p1, p2)) := by
  constructor
  · intro s hlen
    unfold parse_triangle_string
    cases hm : mapOption parsePoint (pySplitBrace ((s.drop 1).dropRight 1)) with
    | none => rfl
    | some pts =>
      have hl := mapOption_length hm
      rcases pts with _ | ⟨q0, _ | ⟨q1, _ | ⟨q2, rest⟩⟩⟩
      · rfl
      · rfl
      · rfl
      · exfalso
        rw [← hl] at hlen
        simp at hlen
        omega
  · intro s p0 p1 p2 hm
    unfold parse_triangle_string
    rw [hm]

/-- Witness for C2 (amended): a two-group line fails, a three-group line
succeeds. -/
theorem parse_triangle_string_group_count_witness :
    parse_triangle_string twoGroupLine = none ∧
    parse_triangle_string threeGroupLine = some (⟨0, 0, 0⟩, ⟨1, 1, 1⟩, ⟨2, 2, 2⟩) :=
  ⟨parse_triangle_string_group_count.1 twoGroupLine (by decide),
   parse_triangle_string_group_count.2 threeGroupLine ⟨0, 0, 0⟩ ⟨1, 1, 1⟩ ⟨2, 2, 2⟩
     (by decide)⟩

/-- Counterexample to claim C3 as stated: a point substring with four
numeric components does not fail; the parser builds the point from the
first three. -/
theorem parsePoint_four_components_ok :
    (pySplitComma "0,0,0,7").length = 4 ∧ parsePoint "0,0,0,7" = some ⟨0, 0, 0⟩ := by
  decide

/-- Claim C3 (amended): parsing a point substring splits it on `,`,
converts every component, and fails with a parse error when a component is
non-numeric or when fewer than 3 components result; with exactly 3 numeric
components it returns the point (x, y, z). -/
theorem parsePoint_component_count :
    (∀ g : String,
       ((∃ c ∈ pySplitComma g, parseFloat c = none) ∨ (pySplitComma g).length < 3) →
       parsePoint g = none) ∧
    (∀ (g : String) (x y z : ℚ),
       mapOption parseFloat (pySplitComma g) = some [x, y, z] →
       parsePoint g = some ⟨x, y, z⟩) := by
  constructor
  · intro g hg
    unfold parsePoint
    rcases hg with hbad | hshort
    · rw [mapOption_eq_none_of_mem hbad]
    · cases hm : mapOption parseFloat (pySplitComma g) with
      | none => rfl
      | some cs =>
        have hl := mapOption_length hm
        rcases cs with _ | ⟨x, _ | ⟨y, _ | ⟨z, rest⟩⟩⟩
        · rfl
        · rfl
        · rfl
        · exfalso
          rw [← hl] at hshort
          simp at hshort
          omega
  · intro g x y z hm
    unfold parsePoint
    rw [hm]

/-- Witness for C3 (amended): two components fail, a non-numeric component
fails, three numeric components succeed. -/
theorem parsePoint_component_count_witness :
    parsePoint "1,2" = none ∧ parsePoint "0,bad,0" = none ∧
    parsePoint "1,2,3" = some ⟨1, 2, 3⟩ :=
  ⟨parsePoint_component_count.1 "1,2" (by decide),
   parsePoint_component_count.1 "0,bad,0" (by decide),
   parsePoint_component_count.2 "1,2,3" 1 2 3 (by decide)⟩

/-- Counterexample to claim C4 as stated: the worked example's scene has 8
shapes (3 struts + 5 decorative), not 6. -/
theorem visualize_sample_scene_not_six :
    (visualize sampleLines).map (fun r => r.scene.length) = some 8 ∧ (8 : ℕ) ≠ 6 := by
  with_unfolding_all decide

/-- Claim C4 (amended): the worked example yields summary
"Number of seats" = "12", field width 10, field length 20, and one
triangle's 3 struts followed by the 5 fixed shapes — 8 shapes in total. -/
theorem visualize_sample_document :
    visualize sampleLines = some sampleResult ∧
    sampleResult.summary = [("Number of seats", "12")] ∧
    sampleResult.field_width = 10 ∧ sampleResult.field_length = 20 ∧
    sampleResult.scene =
      strutsOfTriangle ⟨0, 0, 0⟩ ⟨1, 0, 0⟩ ⟨0, 1, 0⟩ ++ decorativeShapes 20 10 ∧
    (strutsOfTriangle ⟨0, 0, 0⟩ ⟨1, 0, 0⟩ ⟨0, 1, 0⟩).length = 3 ∧
    (decorativeShapes 20 10).length = 5 ∧ sampleResult.scene.length = 8 := by
  with_unfolding_all decide

/-- Claim C5: on a successful interpretation the field width is twice the
parsed value of line 1 and the field length twice the parsed value of
line 2, and the field slab in the scene is sized by exactly these. -/
theorem visualize_field_dimensions_doubled :
    ∀ (lines : List String) (r : VisualizeResult) (s1 s2 : String) (w l : ℚ),
      lines[1]? = some s1 → parseFloat s1 = some w →
      lines[2]? = some s2 → parseFloat s2 = some l →
      visualize lines = some r →
      r.field_width = w * 2 ∧ r.field_length = l * 2 ∧
      Shape.rectangularExtrusion r.field_width r.field_length ⟨⟨0, 0, 0⟩, ⟨0, 0, 0.1⟩⟩
        (some ⟨"grass", MColor.green, none⟩) ∈ r.scene := by
  intro lines r s1 s2 w l h1 hw h2 hl h
  obtain ⟨s0', s1', w', s2', l', scene, h0', h1', hw', h2', hl', hg, hr⟩ :=
    visualize_some_elim h
  rw [h1] at h1'
  injection h1' with e1
  subst e1
  rw [hw] at hw'
  injection hw' with ew
  subst ew
  rw [h2] at h2'
  injection h2' with e2
  subst e2
  rw [hl] at hl'
  injection hl' with el
  subst el
  subst hr
  obtain ⟨tris, htris, hscene⟩ := generate_eq_some_iff.mp hg
  refine ⟨rfl, rfl, ?_⟩
  rw [show (⟨[("Number of seats", s0')], w * 2, l * 2, scene⟩ : VisualizeResult).scene =
      scene from rfl, hscene]
  apply List.mem_append_right
  simp [decorativeShapes]

/-- Witness for C5 at the worked example: width 10 = 5·2, length
20 = 10·2, and the slab is in the scene. -/
theorem visualize_field_dimensions_doubled_witness :
    sampleResult.field_width = 5 * 2 ∧ sampleResult.field_length = 10 * 2 ∧
    Shape.rectangularExtrusion sampleResult.field_width sampleResult.field_length
      ⟨⟨0, 0, 0⟩, ⟨0, 0, 0.1⟩⟩ (some ⟨"grass", MColor.green, none⟩) ∈ sampleResult.scene :=
  visualize_field_dimensions_doubled sampleLines sampleResult "5.0" "10.0" 5 10
    (by decide) (by decide) (by decide) (by decide) (by with_unfolding_all decide)

/-- Claim C6: the three-group example parses to the points (0,0,0),
(1,1,1), (2,2,2), and every successfully parsed triangle (A, B, C)
contributes exactly three radius-0.5 circular struts with centerlines
A–B, A–C and B–C, in that order. -/
theorem parse_and_struts_of_triangle :
    parse_triangle_string threeGroupLine = some (⟨0, 0, 0⟩, ⟨1, 1, 1⟩, ⟨2, 2, 2⟩) ∧
    ∀ (fl fw : ℚ) (ts : List String) (tris : List (Point × Point × Point)),
      mapOption parse_triangle_string ts = some tris →
      generate_geometry_group_from_triangles fl fw ts =
        some ((tris.map fun t =>
            [Shape.circularExtrusion 0.5 ⟨t.1, t.2.1⟩ none,
             Shape.circularExtrusion 0.5 ⟨t.1, t.2.2⟩ none,
             Shape.circularExtrusion 0.5 ⟨t.2.1, t.2.2⟩ none]).flatten ++
          decorativeShapes fl fw) := by
  constructor
  · decide
  · intro fl fw ts tris hm
    exact generate_eq_some_iff.mpr ⟨tris, hm, rfl⟩

/-- Witness for C6: the example triangle yields exactly its three struts
followed by the decorative shapes. -/
theorem parse_and_struts_of_triangle_witness :
    parse_triangle_string threeGroupLine = some (⟨0, 0, 0⟩, ⟨1, 1, 1⟩, ⟨2, 2, 2⟩) ∧
    generate_geometry_group_from_triangles 20 10 [threeGroupLine] =
      some (([((⟨0, 0, 0⟩ : Point), (⟨1, 1, 1⟩ : Point), (⟨2, 2, 2⟩ : Point))].map fun t =>
          [Shape.circularExtrusion 0.5 ⟨t.1, t.2.1⟩ none,
           Shape.circularExtrusion 0.5 ⟨t.1, t.2.2⟩ none,
           Shape.circularExtrusion 0.5 ⟨t.2.1, t.2.2⟩ none]).flatten ++
        decorativeShapes 20 10) :=
  ⟨parse_and_struts_of_triangle.1,
   parse_and_struts_of_triangle.2 20 10 [threeGroupLine]
     [(⟨0, 0, 0⟩, ⟨1, 1, 1⟩, ⟨2, 2, 2⟩)] (by decide)⟩

/-- Claim C7: a Result Document with fewer than 3 lines always fails with
no result at all, while a document of exactly 3 lines whose dimension
lines parse succeeds, with no struts and only the 5 decorative shapes. -/
theorem visualize_line_count_requirements :
    (∀ lines : List String, lines.length < 3 → visualize lines = none) ∧
    (∀ (s0 s1 s2 : String) (w l : ℚ), parseFloat s1 = some w → parseFloat s2 = some l →
       visualize [s0, s1, s2] =
         some ⟨[("Number of seats", s0)], w * 2, l * 2, decorativeShapes (l * 2) (w * 2)⟩) := by
  constructor
  · intro lines hlen
    cases h : visualize lines with
    | none => rfl
    | some r =>
      exfalso
      obtain ⟨s0, s1, w, s2, l, scene, h0, h1, hw, h2, hl, hg, hr⟩ := visualize_some_elim h
      obtain ⟨hlt, -⟩ := List.getElem?_eq_some.mp h2
      omega
  · intro s0 s1 s2 w l hw hl
    unfold visualize
    simp [hw, hl, generate_geometry_group_from_triangles, mapOption]

/-- Witness for C7: a two-line document fails; the worked example's first
three lines succeed. -/
theorem visualize_line_count_requirements_witness :
    visualize ["12", "5.0"] = none ∧
    visualize ["12", "5.0", "10.0"] =
      some ⟨[("Number of seats", "12")], 5 * 2, 10 * 2, decorativeShapes (10 * 2) (5 * 2)⟩ :=
  ⟨visualize_line_count_requirements.1 ["12", "5.0"] (by decide),
   visualize_line_count_requirements.2 "12" "5.0" "10.0" 5 10 (by decide) (by decide)⟩

/-- Claim C8: the serialized `input.txt` line holds the seven parameter
fields joined by `, ` in the fixed order, so splitting it on `,` yields
exactly 7 fields whenever no field value itself contains a comma. -/
theorem input_str_field_count :
    ∀ p : DesignParams,
      ',' ∉ p.pitch_width.data → ',' ∉ p.Offset.data → ',' ∉ p.Shape.data →
      ',' ∉ p.Depth.data → ',' ∉ p.Asymmetry_length.data → ',' ∉ p.Asymmetry_width.data →
      ',' ∉ p.Height.data →
      (pySplitComma (input_str p)).length = 7 := by
  intro p h1 h2 h3 h4 h5 h6 h7
  rw [pySplitComma_length]
  unfold input_str
  simp only [String.data_append, List.count_append]
  rw [List.count_eq_zero.mpr h1, List.count_eq_zero.mpr h2, List.count_eq_zero.mpr h3,
    List.count_eq_zero.mpr h4, List.count_eq_zero.mpr h5, List.count_eq_zero.mpr h6,
    List.count_eq_zero.mpr h7]
  decide

/-- Witness for C8 at a concrete parameter record. -/
theorem input_str_field_count_witness :
    (pySplitComma (input_str ⟨"68", "0", "1", "5", "0", "2", "12"⟩)).length = 7 :=
  input_str_field_count ⟨"68", "0", "1", "5", "0", "2", "12"⟩ (by decide) (by decide)
    (by decide) (by decide) (by decide) (by decide) (by decide)

/-- Claim C9: on every successful interpretation the scene ends with the
five fixed decorative shapes, in order: the green field slab (computed
width and length, height 0.1, opaque), the white width-1 centerline strip
over the field length (height 0.4, opaque), the white radius-14 circle
(height 0.2, 90% opacity), the green radius-12 disk (height 0.3, opacity
1), and the white radius-1.5 center point (height 0.4, 90% opacity). -/
theorem visualize_decorative_shapes :
    ∀ (lines : List String) (r : VisualizeResult), visualize lines = some r →
    ∃ struts, r.scene = struts ++
      [Shape.rectangularExtrusion r.field_width r.field_length ⟨⟨0, 0, 0⟩, ⟨0, 0, 0.1⟩⟩
         (some ⟨"grass", MColor.green, none⟩),
       Shape.rectangularExtrusion 1 r.field_length ⟨⟨0, 0, 0⟩, ⟨0, 0, 0.4⟩⟩
         (some ⟨"line", MColor.white, none⟩),
       Shape.circularExtrusion 14 ⟨⟨0, 0, 0⟩, ⟨0, 0, 0.2⟩⟩
         (some ⟨"line", MColor.white, some 0.9⟩),
       Shape.circularExtrusion 12 ⟨⟨0, 0, 0⟩, ⟨0, 0, 0.3⟩⟩
         (some ⟨"grass", MColor.green, some 1⟩),
       Shape.circularExtrusion 1.5 ⟨⟨0, 0, 0⟩, ⟨0, 0, 0.4⟩⟩
         (some ⟨"line", MColor.white, some 0.9⟩)] := by
  intro lines r h
  obtain ⟨s0, s1, w, s2, l, scene, h0, h1, hw, h2, hl, hg, hr⟩ := visualize_some_elim h
  obtain ⟨tris, htris, hscene⟩ := generate_eq_some_iff.mp hg
  subst hr
  exact ⟨(tris.map fun t => strutsOfTriangle t.1 t.2.1 t.2.2).flatten, hscene⟩

/-- Witness for C9 at the worked example. -/
theorem visualize_decorative_shapes_witness :
    ∃ struts, sampleResult.scene = struts ++
      [Shape.rectangularExtrusion sampleResult.field_width sampleResult.field_length
         ⟨⟨0, 0, 0⟩, ⟨0, 0, 0.1⟩⟩ (some ⟨"grass", MColor.green, none⟩),
       Shape.rectangularExtrusion 1 sampleResult.field_length ⟨⟨0, 0, 0⟩, ⟨0, 0, 0.4⟩⟩
         (some ⟨"line", MColor.white, none⟩),
       Shape.circularExtrusion 14 ⟨⟨0, 0, 0⟩, ⟨0, 0, 0.2⟩⟩
         (some ⟨"line", MColor.white, some 0.9⟩),
       Shape.circularExtrusion 12 ⟨⟨0, 0, 0⟩, ⟨0, 0, 0.3⟩⟩
         (some ⟨"grass", MColor.green, some 1⟩),
       Shape.circularExtrusion 1.5 ⟨⟨0, 0, 0⟩, ⟨0, 0, 0.4⟩⟩
         (some ⟨"line", MColor.white, some 0.9⟩)] :=
  visualize_decorative_shapes sampleLines sampleResult (by with_unfolding_all decide)

/-- Claim C10: a triangle line splitting into more than three numeric
point groups parses without error to its first three points, and a point
group with more than three numeric components yields the point built from
its first three components; the extras are ignored. -/
theorem parse_extra_groups_and_components_ignored :
    (∀ (s : String) (p0 p1 p2 : Point) (rest : List Point), rest ≠ [] →
       mapOption parsePoint (pySplitBrace ((s.drop 1).dropRight 1)) =
         some (p0 :: p1 :: p2 :: rest) →
       parse_triangle_string s = some (p0, p1, p2)) ∧
    (∀ (g : String) (x y z : ℚ) (rest : List ℚ), rest ≠ [] →
       mapOption parseFloat (pySplitComma g) = some (x :: y :: z :: rest) →
       parsePoint g = some ⟨x, y, z⟩) := by
  constructor
  · intro s p0 p1 p2 rest _ hm
    unfold parse_triangle_string
    rw [hm]
  · intro g x y z rest _ hm
    unfold parsePoint
    rw [hm]

/-- Witness for C10: the four-group line and a four-component group. -/
theorem parse_extra_groups_and_components_ignored_witness :
    parse_triangle_string fourGroupLine = some (⟨0, 0, 0⟩, ⟨1, 1, 1⟩, ⟨2, 2, 2⟩) ∧
    parsePoint "0,0,0,7" = some ⟨0, 0, 0⟩ :=
  ⟨parse_extra_groups_and_components_ignored.1 fourGroupLine ⟨0, 0, 0⟩ ⟨1, 1, 1⟩ ⟨2, 2, 2⟩
     [⟨3, 3, 3⟩] (by decide) (by decide),
   parse_extra_groups_and_components_ignored.2 "0,0,0,7" 0 0 0 [7] (by decide) (by decide)⟩

end Grasshopper
